import Mathlib

/-!
Verification of the json_pointer repository (src/json_pointer.py), a Python 2
implementation of IETF RFC 6901 JSON Pointers.  Python strings are modelled as
`List Char`, Python values as the inductive `PyVal`, and the class
`JsonPointer` as its mutable token list `List (List Char)` with explicit state
passing.  Python exceptions are modelled by `Except` with the error inductive
`PyError`: every `JsonPointerException` message form of the source gets one
constructor carrying the data interpolated into the message, and `AssertionError`
(from `assert` statements) gets a separate constructor.
-/

/-- Convenience conversion of a Lean string literal to the char-list model of a
Python string. -/
def chars (s : String) : List Char := s.toList

/-- Model of an in-memory Python value as consumed by the library: JSON-style
trees whose maps have string keys, plus the scalar shapes the code can meet. -/
inductive PyVal where
  | str (s : List Char)
  | int (n : Int)
  | bool (b : Bool)
  | null
  | list (items : List PyVal)
  | dict (entries : List (List Char × PyVal))

/-- Model of isinstance(obj, dict). -/
def PyVal.isDict : PyVal → Bool
  | .dict _ => true
  | _ => false

/-- Model of isinstance(obj, str). -/
def PyVal.isStr : PyVal → Bool
  | .str _ => true
  | _ => false

/-- Error model.  The first four constructors are the JsonPointerException
message forms raised in src/json_pointer.py (each carries the data the message
interpolates); assertionError models Python AssertionError raised by the
assert statements, which is a different exception class. -/
inductive PyError where
  | malformedPointer
  | couldNotUseKey (token : List Char) (pointer : List Char)
  | indexOutOfBounds (token : List Char) (lastToken : Option (List Char)) (pointer : List Char)
  | leadingZeroFound (pointer : List Char)
  | assertionError

/-- Predicate separating JsonPointerException kinds from AssertionError. -/
def isJsonPointerException : PyError → Bool
  | .assertionError => false
  | _ => true

/-- Failure modes of a single container access in
JsonPointer.__access_attribute_from_object, before the evaluate loop remaps
them: the Python exception classes KeyError, TypeError, ValueError, IndexError,
plus the JsonPointerException raised directly for a leading zero. -/
inductive AccessFailure where
  | keyError
  | typeError
  | valueError
  | indexError
  | leadingZero

/-- Model of Python str.split(sep) for a one-character separator: splits the
string at every occurrence of the separator, keeping empty pieces, and always
returns at least one piece. -/
def splitOnChar (c : Char) : List Char → List (List Char)
  | [] => [[]]
  | x :: xs =>
    if x = c then [] :: splitOnChar c xs
    else
      match splitOnChar c xs with
      | [] => [[x]]
      | p :: ps => (x :: p) :: ps

/-- Fuel-driven worker for `pyReplace`; fuel at least the list length makes it
total while matching Python str.replace exactly. -/
def pyReplaceGo (p : Char) (ps rep : List Char) : Nat → List Char → List Char
  | 0, l => l
  | _ + 1, [] => []
  | fuel + 1, x :: xs =>
    if x == p && ps.isPrefixOf xs then
      rep ++ pyReplaceGo p ps rep fuel (xs.drop ps.length)
    else
      x :: pyReplaceGo p ps rep fuel xs

/-- Model of Python str.replace(pat, rep) for a non-empty pattern written as
its head `p` and tail `ps`: left-to-right, non-overlapping replacement of every
occurrence. -/
def pyReplace (p : Char) (ps rep : List Char) (s : List Char) : List Char :=
  pyReplaceGo p ps rep s.length s

/-- Model of JsonPointer.__revert_escaped_path_string: first every occurrence
of the two characters tilde one becomes a slash, then every occurrence of
tilde zero becomes a tilde, exactly as the chained str.replace calls do. -/
def revertEscapedPathString (s : List Char) : List Char :=
  pyReplace '~' (chars ("0")) (chars ("~")) (pyReplace '~' (chars ("1")) (chars ("/")) s)

/-- Value of a hexadecimal digit character, if it is one. -/
def hexVal (ch : Char) : Option Nat :=
  if '0' ≤ ch ∧ ch ≤ '9' then some (ch.toNat - 48)
  else if 'a' ≤ ch ∧ ch ≤ 'f' then some (ch.toNat - 87)
  else if 'A' ≤ ch ∧ ch ≤ 'F' then some (ch.toNat - 55)
  else Option.none

/-- Handling of one piece after a percent sign in Python 2 urllib.unquote: if
its first two characters are hex digits they decode to one character, else the
percent sign is kept verbatim. -/
def unquoteItem (item : List Char) : List Char :=
  match item with
  | a :: b :: rest =>
    match hexVal a, hexVal b with
    | some x, some y => Char.ofNat (16 * x + y) :: rest
    | _, _ => '%' :: item
  | _ => '%' :: item

/-- Model of Python 2 urllib.unquote: split on the percent sign, keep the first
piece, and decode each later piece with `unquoteItem`. -/
def pyUnquote (s : List Char) : List Char :=
  match splitOnChar '%' s with
  | [] => s
  | first :: rest => first ++ (rest.map unquoteItem).flatten

/-- Characters stripped by Python 2 int() before parsing a decimal literal. -/
def isPySpace (ch : Char) : Bool :=
  ch == ' ' || ch == '\t' || ch == '\n' || ch == '\x0b' || ch == '\x0c' || ch == '\r'

/-- Accumulating decimal-digit reader: fails on any non-digit character. -/
def digitsLoop : List Char → Nat → Option Nat
  | [], acc => some acc
  | d :: ds, acc =>
    if d.isDigit then digitsLoop ds (acc * 10 + (d.toNat - 48)) else Option.none

/-- Reads a non-empty all-digit string as a natural number. -/
def digitsToNat (ds : List Char) : Option Nat :=
  if ds = [] then Option.none else digitsLoop ds 0

/-- Model of Python 2 int(s) on a byte string with base 10: strip ASCII
whitespace at both ends, allow one optional sign, then require one or more
decimal digits; anything else raises ValueError (here: Option.none). -/
def pyStrToInt (s : List Char) : Option Int :=
  match ((s.dropWhile (fun ch => isPySpace ch)).reverse.dropWhile (fun ch => isPySpace ch)).reverse with
  | '+' :: ds => (digitsToNat ds).map (fun n => (n : Int))
  | '-' :: ds => (digitsToNat ds).map (fun n => -(n : Int))
  | ds => (digitsToNat ds).map (fun n => (n : Int))

/-- Model of CPython list subscripting with an int index: a negative index has
the length added once; the result must then be in range, else IndexError
(here: Option.none). -/
def pyListGet (items : List PyVal) (i : Int) : Option PyVal :=
  if i < 0 then
    if i + items.length < 0 then Option.none
    else items.get? (i + items.length).toNat
  else items.get? i.toNat

/-- Model of the check len(key) > 1 and key[0] == ZERO guarding list access. -/
def hasDisallowedLeadingZero : List Char → Bool
  | '0' :: _ :: _ => true
  | _ => false

/-- Model of JsonPointer.__access_attribute_from_object: on a dict the key is
percent-unquoted then tilde-reverted and looked up; on a list the dash token
means length - 1, a token longer than one character starting with the zero
character raises the leading-zero JsonPointerException, any other token goes
through int() and indexes the list; any other value raises TypeError when
subscripted. -/
def accessAttributeFromObject (key : List Char) (obj : PyVal) : Except AccessFailure PyVal :=
  match obj with
  | .dict entries =>
    match List.lookup (revertEscapedPathString (pyUnquote key)) entries with
    | some v => Except.ok v
    | Option.none => Except.error AccessFailure.keyError
  | .list items =>
    if key = chars ("-") then
      match pyListGet items ((items.length : Int) - 1) with
      | some v => Except.ok v
      | Option.none => Except.error AccessFailure.indexError
    else if hasDisallowedLeadingZero key then Except.error AccessFailure.leadingZero
    else
      match pyStrToInt key with
      | Option.none => Except.error AccessFailure.valueError
      | some i =>
        match pyListGet items i with
        | some v => Except.ok v
        | Option.none => Except.error AccessFailure.indexError
  | _ => Except.error AccessFailure.typeError

/-- Model of JsonPointer.__str__: the fold of the loop appending a slash and a
piece for every stored piece. -/
def pointerStr (pieces : List (List Char)) : List Char :=
  List.foldl (fun acc p => acc ++ '/' :: p) [] pieces

/-- Model of JsonPointer.__init__ combined with __validate_pointer: a non-str
argument or a non-empty string not starting with a slash raises
JsonPointerException; otherwise the pieces are the split on slash with the
leading empty piece dropped, stored raw with no unescaping. -/
def jsonPointerInit : PyVal → Except PyError (List (List Char))
  | .str s =>
    if s ≠ [] ∧ s.head? ≠ some '/' then Except.error PyError.malformedPointer
    else Except.ok ((splitOnChar '/' s).drop 1)
  | _ => Except.error PyError.malformedPointer

/-- Walk of the evaluate loop: tries each piece in turn against the current
value, remapping KeyError, TypeError and ValueError to the could-not-use-key
JsonPointerException, IndexError to the out-of-bounds JsonPointerException
carrying the previously consumed piece, and letting the leading-zero
JsonPointerException propagate. -/
def evaluateLoop (self : List (List Char)) :
    List (List Char) → Option (List Char) → PyVal → Except PyError PyVal
  | [], _, obj => Except.ok obj
  | piece :: rest, lastPiece, obj =>
    match accessAttributeFromObject piece obj with
    | Except.ok next => evaluateLoop self rest (some piece) next
    | Except.error AccessFailure.keyError =>
      Except.error (PyError.couldNotUseKey piece (pointerStr self))
    | Except.error AccessFailure.typeError =>
      Except.error (PyError.couldNotUseKey piece (pointerStr self))
    | Except.error AccessFailure.valueError =>
      Except.error (PyError.couldNotUseKey piece (pointerStr self))
    | Except.error AccessFailure.indexError =>
      Except.error (PyError.indexOutOfBounds piece lastPiece (pointerStr self))
    | Except.error AccessFailure.leadingZero =>
      Except.error (PyError.leadingZeroFound (pointerStr self))

/-- Model of the JsonPointer.evaluate method: the assert that the root is a
dict (AssertionError when it is not), then the token walk starting from the
root with no previously consumed piece. -/
def evaluateMethod (self : List (List Char)) (obj : PyVal) : Except PyError PyVal :=
  if obj.isDict then evaluateLoop self self Option.none obj
  else Except.error PyError.assertionError

/-- Model of the module-level convenience function evaluate(pointer, obj):
construct the JsonPointer, then evaluate it. -/
def evaluateFn (pointer obj : PyVal) : Except PyError PyVal :=
  match jsonPointerInit pointer with
  | Except.error e => Except.error e
  | Except.ok pieces => evaluateMethod pieces obj

/-- Convenience wrapper taking the pointer as a Lean string literal. -/
def evalStr (s : String) (obj : PyVal) : Except PyError PyVal :=
  evaluateFn (PyVal.str (chars s)) obj

/-- Model of Python str(n) for an int. -/
def pyIntToChars (n : Int) : List Char :=
  if n < 0 then '-' :: Nat.toDigits 10 n.natAbs else Nat.toDigits 10 n.toNat

/-- Model of JsonPointer.move_pointer_forward: the assert accepts a str or an
int (in Python 2 a bool is an int and str() renders True or False); the
stringified attribute is appended to the pieces. -/
def movePointerForward (pieces : List (List Char)) (attr : PyVal) :
    Except PyError (List (List Char)) :=
  match attr with
  | .str s => Except.ok (pieces ++ [s])
  | .int n => Except.ok (pieces ++ [pyIntToChars n])
  | .bool b => Except.ok (pieces ++ [if b then chars ("True") else chars ("False")])
  | _ => Except.error PyError.assertionError

/-- Model of JsonPointer.move_pointer_backward: pop and return the last piece
when there is one, else return None and leave the pieces alone. -/
def movePointerBackward (pieces : List (List Char)) :
    Option (List Char) × List (List Char) :=
  if 0 < pieces.length then (pieces.getLast?, pieces.dropLast) else (Option.none, pieces)

/-- Iterated move_pointer_backward: the list of returned values of n calls in
order, paired with the final pieces state. -/
def ascendN : Nat → List (List Char) → List (Option (List Char)) × List (List Char)
  | 0, pieces => ([], pieces)
  | Nat.succ n, pieces =>
    let step := movePointerBackward pieces
    let rest := ascendN n step.2
    (step.1 :: rest.1, rest.2)

/-- Model of JsonPointer.__eq__: string representations compared for equality. -/
def pointerEq (p q : List (List Char)) : Bool :=
  decide (pointerStr p = pointerStr q)

/-- Model of JsonPointer.__hash__, parametrised by the (implementation-defined)
CPython string hash: the hash of a pointer is the hash of its string form. -/
def pointerHash (h : List Char → Int) (pieces : List (List Char)) : Int :=
  h (pointerStr pieces)

/-- Helper used only in proofs: joins split pieces back with the separator. -/
def joinWithChar (c : Char) : List (List Char) → List Char
  | [] => []
  | p :: ps => p ++ (ps.map (fun q => c :: q)).flatten

/-- Root map used by the concrete examples of the spec: a key foo holding the
two-element list of the strings bar and baz. -/
def dFoo : PyVal :=
  PyVal.dict [(chars ("foo"), PyVal.list [PyVal.str (chars ("bar")), PyVal.str (chars ("baz"))])]


/-- Python split never returns an empty list of pieces. -/
theorem splitOnChar_ne_nil (c : Char) (s : List Char) : splitOnChar c s ≠ [] := by
  cases s with
  | nil => simp [splitOnChar]
  | cons x xs =>
    simp only [splitOnChar]
    split
    · simp
    · split <;> simp

/-- Joining the pieces of a split with the separator restores the string. -/
theorem split_join (c : Char) (s : List Char) : joinWithChar c (splitOnChar c s) = s := by
  induction s with
  | nil => rfl
  | cons x xs ih =>
    by_cases hx : x = c
    · subst hx
      obtain ⟨p, t, ht⟩ := List.exists_cons_of_ne_nil (splitOnChar_ne_nil x xs)
      rw [ht] at ih
      simp only [splitOnChar, if_pos rfl, ht, joinWithChar, List.map_cons, List.flatten_cons,
        List.nil_append] at ih ⊢
      rw [← ih]
      simp [joinWithChar]
    · obtain ⟨p, t, ht⟩ := List.exists_cons_of_ne_nil (splitOnChar_ne_nil c xs)
      rw [ht] at ih
      simp only [splitOnChar, if_neg hx, ht, joinWithChar] at ih ⊢
      rw [List.cons_append, ih]

/-- Optional lookup one past the end of the prefix of an appended singleton. -/
theorem getOpt_append_last {α : Type} (l : List α) (a : α) :
    (l ++ [a]).get? l.length = some a := by
  induction l with
  | nil => rfl
  | cons x xs ih => simp [ih]

/-- Fold form of the serializer as an accumulator-general flatten. -/
theorem pointerStr_foldl (pieces : List (List Char)) : ∀ acc : List Char,
    List.foldl (fun acc p => acc ++ '/' :: p) acc pieces
      = acc ++ (pieces.map (fun p => '/' :: p)).flatten := by
  induction pieces with
  | nil => simp
  | cons p ps ih => intro acc; simp [List.foldl, ih, List.append_assoc]

/-- Round trip of the parser and the serializer on any accepted pointer string. -/
theorem pointerStr_split (s : List Char) (h : s = [] ∨ s.head? = some '/') :
    pointerStr ((splitOnChar '/' s).drop 1) = s := by
  rcases h with h | h
  · subst h; rfl
  · cases s with
    | nil => simp at h
    | cons x xs =>
      simp only [List.head?] at h
      obtain rfl : x = '/' := by injection h
      obtain ⟨p, t, ht⟩ := List.exists_cons_of_ne_nil (splitOnChar_ne_nil '/' xs)
      have hj := split_join '/' xs
      rw [ht] at hj
      simp only [joinWithChar] at hj
      have hsp : splitOnChar '/' ('/' :: xs) = [] :: splitOnChar '/' xs := by
        simp [splitOnChar]
      rw [hsp, List.drop_succ_cons, List.drop_zero, ht]
      simp only [pointerStr, pointerStr_foldl, List.nil_append, List.map_cons,
        List.flatten_cons, List.cons_append, hj]

/-- Popping from a pointer that ends in a given piece returns that piece and
keeps the rest. -/
theorem movePointerBackward_concat (l : List (List Char)) (x : List Char) :
    movePointerBackward (l ++ [x]) = (some x, l) := by
  simp [movePointerBackward, List.getLast?_concat]

/-- Iterated ascending of the empty pointer keeps returning the None sentinel. -/
theorem ascendN_nil (k : Nat) : ascendN k [] = (List.replicate k Option.none, []) := by
  induction k with
  | zero => rfl
  | succ n ih => simp [ascendN, movePointerBackward, ih, List.replicate_succ]

/-- Ascending exactly as many times as there are pieces returns every piece in
reverse order and empties the pointer. -/
theorem ascendN_full (ps : List (List Char)) :
    ascendN ps.length ps = (ps.reverse.map some, []) := by
  induction ps using List.reverseRecOn with
  | nil => rfl
  | append_singleton l x ih =>
    rw [List.length_append, List.length_singleton]
    simp only [ascendN, movePointerBackward_concat, ih, List.reverse_append,
      List.reverse_singleton, List.singleton_append, List.map_cons]

/-- Splitting an iterated ascend into two runs. -/
theorem ascendN_add (m k : Nat) : ∀ ps : List (List Char),
    ascendN (m + k) ps
      = ((ascendN m ps).1 ++ (ascendN k (ascendN m ps).2).1,
         (ascendN k (ascendN m ps).2).2) := by
  induction m with
  | zero => intro ps; simp [ascendN]
  | succ n ih =>
    intro ps
    rw [Nat.succ_add]
    simp only [ascendN, ih]
    simp [List.cons_append]

/-- C1: divergence evidence for the claim that every sequence token other than
the dash must be a non-negative integer literal.  With the root mapping foo to
the list of bar and baz, the token minus-one is not rejected with the
InvalidIndex error: int() parses it and CPython negative indexing returns the
last element baz.  The leading-zero part and the non-numeric part of the claim
do hold, as the second and third conjuncts show. -/
theorem claim_C1_negative_index_accepted :
    evalStr ("/foo/-1") dFoo = Except.ok (PyVal.str (chars ("baz")))
    ∧ evalStr ("/foo/01") dFoo = Except.error (PyError.leadingZeroFound (chars ("/foo/01")))
    ∧ evalStr ("/foo/bar") dFoo
        = Except.error (PyError.couldNotUseKey (chars ("bar")) (chars ("/foo/bar"))) :=
  ⟨rfl, rfl, rfl⟩

/-- C2: a map step percent-decodes the raw token, then replaces tilde-one by
slash and then tilde-zero by tilde, and looks the result up, failing with the
could-not-use-key error (the NoSuchKey kind) when the key is missing.  The
concrete conjuncts pin the behaviour: tilde unescaping, percent decoding
before tilde reverting (the token tilde-zero-one reaches the key tilde-one,
not slash), a missing key, and that sequence tokens are never unescaped (the
token percent-three-zero fails as a list index although it decodes to the
valid index zero, while the same token reaches the key zero on a dict). -/
theorem claim_C2_map_unescape (key : List Char) (entries : List (List Char × PyVal)) :
    accessAttributeFromObject key (PyVal.dict entries)
        = (match List.lookup (revertEscapedPathString (pyUnquote key)) entries with
           | some v => Except.ok v
           | Option.none => Except.error AccessFailure.keyError)
    ∧ evalStr ("/a~1b~0c") (PyVal.dict [(chars ("a/b~c"), PyVal.int 7)]) = Except.ok (PyVal.int 7)
    ∧ evalStr ("/%41") (PyVal.dict [(chars ("A"), PyVal.int 7)]) = Except.ok (PyVal.int 7)
    ∧ evalStr ("/~01") (PyVal.dict [(chars ("~1"), PyVal.int 7)]) = Except.ok (PyVal.int 7)
    ∧ evalStr ("/missing") (PyVal.dict [(chars ("foo"), PyVal.int 1)])
        = Except.error (PyError.couldNotUseKey (chars ("missing")) (chars ("/missing")))
    ∧ accessAttributeFromObject (chars ("%30")) (PyVal.list [PyVal.int 1, PyVal.int 2])
        = Except.error AccessFailure.valueError
    ∧ accessAttributeFromObject (chars ("%30")) (PyVal.dict [(chars ("0"), PyVal.int 9)])
        = Except.ok (PyVal.int 9) :=
  ⟨rfl, rfl, rfl, rfl, rfl, rfl, rfl⟩

/-- C3: on a sequence the dash token resolves to the element at index
length minus one, so to the last element of any non-empty list; on the empty
list the computed index minus-one is out of bounds and access raises
IndexError; the spec example resolves to baz. -/
theorem claim_C3_dash_last (l : List PyVal) (x : PyVal) :
    accessAttributeFromObject (chars ("-")) (PyVal.list (l ++ [x])) = Except.ok x
    ∧ accessAttributeFromObject (chars ("-")) (PyVal.list []) = Except.error AccessFailure.indexError
    ∧ evalStr ("/foo/-") dFoo = Except.ok (PyVal.str (chars ("baz"))) := by
  refine ⟨?_, rfl, rfl⟩
  show (match pyListGet (l ++ [x]) (((l ++ [x]).length : Int) - 1) with
        | some v => Except.ok v
        | Option.none => Except.error AccessFailure.indexError) = Except.ok x
  have h1 : ((l ++ [x]).length : Int) - 1 = (l.length : Int) := by
    simp only [List.length_append, List.length_singleton]
    push_cast
    ring
  have hnn : ¬ ((l.length : Int) < 0) := by omega
  have h2 : pyListGet (l ++ [x]) ((l.length : Int)) = some x := by
    rw [pyListGet, if_neg hnn, Int.toNat_natCast]
    exact getOpt_append_last l x
  rw [h1, h2]

/-- C4: divergence evidence for the claim that a computed index outside the
range from zero to length minus one always fails with IndexOutOfBounds.  The
spec example does fail that way, and the error carries the previously consumed
token foo; but the token minus-two computes the index minus-two, outside the
range for a two-element list, and resolution succeeds with the first element
because CPython adds the length to a negative index. -/
theorem claim_C4_negative_index_in_bounds :
    evalStr ("/foo/5") dFoo
        = Except.error (PyError.indexOutOfBounds (chars ("5")) (some (chars ("foo"))) (chars ("/foo/5")))
    ∧ evalStr ("/foo/-2") dFoo = Except.ok (PyVal.str (chars ("bar"))) :=
  ⟨rfl, rfl⟩

/-- C5: construction succeeds exactly on string arguments that are empty or
start with a slash; every non-string argument and every other string raises
the malformed-pointer JsonPointerException; accepted strings are split on the
slash with the leading empty piece dropped and no unescaping. -/
theorem claim_C5_parse_iff (v : PyVal) (s : List Char) :
    ((∃ ps, jsonPointerInit v = Except.ok ps)
        ↔ ∃ t, v = PyVal.str t ∧ (t = [] ∨ t.head? = some '/'))
    ∧ (v.isStr = false → jsonPointerInit v = Except.error PyError.malformedPointer)
    ∧ ((s = [] ∨ s.head? = some '/') →
        jsonPointerInit (PyVal.str s) = Except.ok ((splitOnChar '/' s).drop 1)) := by
  refine ⟨?_, ?_, ?_⟩
  · cases v with
    | str t =>
      by_cases hc : t ≠ [] ∧ t.head? ≠ some '/'
      · simp only [jsonPointerInit, if_pos hc]
        simp only [PyVal.str.injEq]
        constructor
        · rintro ⟨ps, hps⟩; cases hps
        · rintro ⟨t2, rfl, hl⟩; exact absurd hl (by tauto)
      · simp only [jsonPointerInit, if_neg hc]
        push_neg at hc
        constructor
        · intro _
          refine ⟨t, rfl, ?_⟩
          by_cases ht : t = []
          · exact Or.inl ht
          · exact Or.inr (hc ht)
        · intro _; exact ⟨(splitOnChar '/' t).drop 1, rfl⟩
    | int n => simp [jsonPointerInit]
    | bool b => simp [jsonPointerInit]
    | null => simp [jsonPointerInit]
    | list items => simp [jsonPointerInit]
    | dict entries => simp [jsonPointerInit]
  · cases v <;> simp [PyVal.isStr, jsonPointerInit]
  · intro h
    rcases h with h | h
    · subst h; rfl
    · simp [jsonPointerInit, h]

/-- C5 witness: a non-string argument is rejected and a slash-led string is
accepted and split. -/
theorem claim_C5_parse_iff_witness :
    jsonPointerInit (PyVal.int 0) = Except.error PyError.malformedPointer
    ∧ jsonPointerInit (PyVal.str (chars ("/a")))
        = Except.ok ((splitOnChar '/' (chars ("/a"))).drop 1) :=
  ⟨(claim_C5_parse_iff (PyVal.int 0) (chars ("/a"))).2.1 rfl,
   (claim_C5_parse_iff (PyVal.int 0) (chars ("/a"))).2.2 (Or.inr rfl)⟩

/-- C6: for every root value that is not a dict, the evaluate method fails
with AssertionError whatever the token list is, before any token is consumed,
and AssertionError is not a JsonPointerException kind. -/
theorem claim_C6_invalid_root (ps : List (List Char)) (obj : PyVal)
    (h : obj.isDict = false) :
    evaluateMethod ps obj = Except.error PyError.assertionError
    ∧ isJsonPointerException PyError.assertionError = false := by
  constructor
  · simp [evaluateMethod, h]
  · rfl

/-- C6 witness: evaluating any pointer against an int root asserts. -/
theorem claim_C6_invalid_root_witness :
    evaluateMethod [chars ("a")] (PyVal.int 3) = Except.error PyError.assertionError
    ∧ isJsonPointerException PyError.assertionError = false :=
  claim_C6_invalid_root [chars ("a")] (PyVal.int 3) rfl

/-- C7: on a pointer with n tokens, n calls of move_pointer_backward return
the n tokens in reverse order and leave the empty pointer whose string form is
empty; every further call keeps returning the None sentinel without failing. -/
theorem claim_C7_ascend (ps : List (List Char)) (h : ps ≠ []) (k : Nat) :
    (ascendN ps.length ps).1 = ps.reverse.map some
    ∧ (ascendN ps.length ps).2 = []
    ∧ pointerStr (ascendN ps.length ps).2 = []
    ∧ (ascendN (ps.length + k) ps).1
        = ps.reverse.map some ++ List.replicate k Option.none := by
  have h1 := ascendN_full ps
  refine ⟨by rw [h1], by rw [h1], by rw [h1]; rfl, ?_⟩
  rw [ascendN_add ps.length k ps, h1]
  simp [ascendN_nil]

/-- C7 witness: the two-token pointer of foo and one, ascended twice and then
once more. -/
theorem claim_C7_ascend_witness :
    (ascendN 2 [chars ("foo"), chars ("1")]).1 = [some (chars ("1")), some (chars ("foo"))]
    ∧ (ascendN 2 [chars ("foo"), chars ("1")]).2 = []
    ∧ pointerStr (ascendN 2 [chars ("foo"), chars ("1")]).2 = []
    ∧ (ascendN (2 + 1) [chars ("foo"), chars ("1")]).1
        = [some (chars ("1")), some (chars ("foo"))] ++ List.replicate 1 Option.none :=
  claim_C7_ascend [chars ("foo"), chars ("1")] (by decide) 1

/-- C8: every accepted pointer string round-trips through parsing and
serializing unchanged (in particular every string with no escape sequences),
the empty string parses to the empty pointer whose string form is empty, and
the empty pointer resolves any dict root to itself. -/
theorem claim_C8_roundtrip (s : List Char) (d : List (List Char × PyVal))
    (h : s = [] ∨ s.head? = some '/') :
    jsonPointerInit (PyVal.str s) = Except.ok ((splitOnChar '/' s).drop 1)
    ∧ pointerStr ((splitOnChar '/' s).drop 1) = s
    ∧ pointerStr ((splitOnChar '/' ([] : List Char)).drop 1) = []
    ∧ evaluateMethod [] (PyVal.dict d) = Except.ok (PyVal.dict d) := by
  refine ⟨?_, pointerStr_split s h, rfl, rfl⟩
  rcases h with h | h
  · subst h; rfl
  · simp [jsonPointerInit, h]

/-- C8 witness: the pointer string slash-foo round-trips and the empty pointer
returns a concrete dict root unchanged. -/
theorem claim_C8_roundtrip_witness :
    jsonPointerInit (PyVal.str (chars ("/foo")))
        = Except.ok ((splitOnChar '/' (chars ("/foo"))).drop 1)
    ∧ pointerStr ((splitOnChar '/' (chars ("/foo"))).drop 1) = chars ("/foo")
    ∧ pointerStr ((splitOnChar '/' ([] : List Char)).drop 1) = []
    ∧ evaluateMethod [] (PyVal.dict [(chars ("k"), PyVal.null)])
        = Except.ok (PyVal.dict [(chars ("k"), PyVal.null)]) :=
  claim_C8_roundtrip (chars ("/foo")) [(chars ("k"), PyVal.null)] (Or.inr rfl)

/-- C9: two pointers are equal exactly when their canonical string forms are
equal; a pointer equals itself (so two pointers built from the same string are
equal); and two differently constructed pointers with the same string form are
equal, here one parsed from slash-a-slash-b and one built by descending with
the single token a-slash-b from the root. -/
theorem claim_C9_eq_canonical (p q : List (List Char)) :
    (pointerEq p q = true ↔ pointerStr p = pointerStr q)
    ∧ pointerEq p p = true
    ∧ movePointerForward [] (PyVal.str (chars ("a/b"))) = Except.ok [chars ("a/b")]
    ∧ pointerEq ((splitOnChar '/' (chars ("/a/b"))).drop 1) [chars ("a/b")] = true := by
  refine ⟨?_, ?_, rfl, rfl⟩
  · simp [pointerEq]
  · simp [pointerEq]

/-- C9 witness: the parsed token pair a, b equals the single mutated token
a-slash-b because both serial forms are slash-a-slash-b. -/
theorem claim_C9_eq_canonical_witness :
    pointerEq [chars ("a"), chars ("b")] [chars ("a/b")] = true :=
  ((claim_C9_eq_canonical [chars ("a"), chars ("b")] [chars ("a/b")]).1).mpr rfl

/-- C10: hashing is consistent with equality in every pointer state: the hash
is the string hash of the canonical form, so whatever the underlying string
hash function, equal pointers hash equally. -/
theorem claim_C10_hash_consistent (h : List Char → Int) (p q : List (List Char))
    (heq : pointerEq p q = true) : pointerHash h p = pointerHash h q := by
  have hs : pointerStr p = pointerStr q := of_decide_eq_true heq
  simp [pointerHash, hs]

/-- C10 witness: with string length as the hash function, the equal pointers
of the C9 example hash equally. -/
theorem claim_C10_hash_consistent_witness :
    pointerHash (fun l => (l.length : Int)) [chars ("a"), chars ("b")]
        = pointerHash (fun l => (l.length : Int)) [chars ("a/b")] :=
  claim_C10_hash_consistent (fun l => (l.length : Int))
    [chars ("a"), chars ("b")] [chars ("a/b")] (by decide)
